import Mathlib

set_option maxRecDepth 8000

/- Verification of the streaming video-render pipeline of render.py
   (maua-stylegan2).  The Python source is shallowly embedded: tensors are
   modelled as dimension-indexed pixel functions over the rationals, the two
   worker loops as total functions over the finite FIFO contents they observe,
   and external collaborators (the generator, the PIL resize, the ffmpeg
   subprocess) as symbolic values recording the exact calls the code makes. -/

namespace RenderPy

/-- Errors a Python execution of the modelled fragments can raise. -/
inductive PyError
  | nameError (missing : String)
  | attributeError (ty attr : String)
  | runtimeError (msg : String)
  | assertionError (msg : String)
  | typeError (msg : String)
  | queueEmpty
  deriving DecidableEq, Repr

/-- A raw generator output image, as an accelerator-resident CHW tensor of
rational pixel values: pix c h w is the value at channel c, row h, column w. -/
structure RawImg where
  C : Nat
  H : Nat
  W : Nat
  pix : Nat → Nat → Nat → Rat

instance : Inhabited RawImg := ⟨⟨0, 0, 0, fun _ _ _ => 0⟩⟩

/-- A formatted frame: HWC layout, 8-bit unsigned pixel values. -/
structure FrameU8 where
  H : Nat
  W : Nat
  C : Nat
  pix : Nat → Nat → Nat → Nat

instance : Inhabited FrameU8 := ⟨⟨0, 0, 0, fun _ _ _ => 0⟩⟩

/-- torch clamp_(-1, 1) on one value. -/
def clampQ (x : Rat) : Rat := max (-1) (min 1 x)

/-- numpy astype(np.uint8) on a nonnegative float value: truncation toward
zero, reduced modulo 256. -/
def u8cast (x : Rat) : Nat := (⌊x⌋).toNat % 256

/-- Line 38 of render.py, (imgs.clamp_(-1, 1) + 1) * 127.5, followed by the
uint8 cast of line 41, on one pixel value. -/
def formatPixel (x : Rat) : Nat := u8cast ((clampQ x + 1) * 127.5)

/-- Lines 38 to 41 applied to one image of a batch: pointwise formatPixel and
the permute(0, 2, 3, 1) reorder from CHW to HWC; the cpu()/numpy() transfer
moves data to the host without changing pixel values. -/
def formatImg (img : RawImg) : FrameU8 :=
  ⟨img.H, img.W, img.C, fun h w c => formatPixel (img.pix c h w)⟩

/-- One unit on the Batch to Formatter channel: a batched tensor, modelled as
the list of its images. -/
abbrev RawBatch := List RawImg

/-- The body of the inner for loop of split_batches, over a whole batch. -/
def processBatchF (b : RawBatch) : List FrameU8 := b.map formatImg

/-- Outcome of running the Frame Formatter worker to completion. -/
structure FormatterRun where
  out : List FrameU8
  exitedViaTimeout : Bool

/-- split_batches (lines 32 to 42) run against the complete FIFO contents of
its input queue: each dequeued batch is formatted and its frames are enqueued
one by one; once the queue is exhausted, get times out after 10 seconds,
queue.Empty is caught, and the worker returns.  That except branch is the only
exit of the while True loop. -/
def split_batches_run : List RawBatch → FormatterRun
  | [] => ⟨[], true⟩
  | b :: rest =>
      let r := split_batches_run rest
      ⟨processBatchF b ++ r.out, r.exitedViaTimeout⟩

/-- str.split with a one-character separator, on the character list. -/
def splitOnChar (sep : Char) : List Char → List (List Char)
  | [] => [[]]
  | c :: cs =>
      let rest := splitOnChar sep cs
      if c = sep then [] :: rest
      else
        match rest with
        | [] => [[c]]
        | r :: rs => (c :: r) :: rs

/-- int(...) on a digit string, as a fold over the characters. -/
def parseNat (cs : List Char) : Nat :=
  cs.foldl (fun acc c => 10 * acc + (c.toNat - 48)) 0

/-- int(output_size.split("x")[0]), the declared width. -/
def widthOf (s : String) : Nat := parseNat ((splitOnChar 'x' s.data).getD 0 [])

/-- int(output_size.split("x")[1]), the declared height. -/
def heightOf (s : String) : Nat := parseNat ((splitOnChar 'x' s.data).getD 1 [])

/-- PIL resampling filter passed to im.resize. -/
inductive ResampleFilter
  | bilinear
  deriving DecidableEq, Repr

/-- A frame as written by make_video: either the dequeued frame unchanged, or,
for 2048-wide frames, the cropped frame handed to the external PIL bilinear
resize together with the recorded target size (lines 78 to 80). -/
inductive SinkFrame
  | plain (f : FrameU8)
  | croppedResized (cropped : FrameU8) (targetW targetH : Nat) (filter : ResampleFilter)

/-- img[:, 112:-112, :] (line 78): drop 112 columns on each side. -/
def cropCols (f : FrameU8) : FrameU8 :=
  ⟨f.H, f.W - 224, f.C, fun h w c => f.pix h (w + 112) c⟩

/-- The numpy shape (H, W, C) of the value that line 82 inspects; a resized
frame has the target height and width and keeps the channel count. -/
def SinkFrame.shape : SinkFrame → Nat × Nat × Nat
  | .plain f => (f.H, f.W, f.C)
  | .croppedResized c tw th _ => (th, tw, c.C)

/-- Lines 77 to 80: every 2048-wide frame, whatever the configured output
size, is cropped and sent to the bilinear 1920x1080 resize; all other frames
pass through untouched. -/
def sinkOut (f : FrameU8) : SinkFrame :=
  if f.W = 2048 then .croppedResized (cropCols f) 1920 1080 .bilinear else .plain f

/-- The message literal of lines 81 to 84. -/
def sizeAssertMsg : String :=
  "generator\x27s output image size does not match specified output size"

/-- The comparison written inside the assert parentheses on line 82:
img.shape[1] == int(output_size.split("x")[1]) and
img.shape[2] == int(output_size.split("x")[0]). -/
def sizeAssertCond (outputSize : String) (sf : SinkFrame) : Bool :=
  decide (sf.shape.2.1 = heightOf outputSize) && decide (sf.shape.2.2 = widthOf outputSize)

/-- Python truthiness of the expression the assert statement of lines 81 to 84
actually tests: the parenthesised pair (condition, message) is a 2-tuple, and
a non-empty tuple is truthy whatever it holds. -/
def pyPairTruthy (_cond : Bool) (_msg : String) : Bool := true

/-- One iteration of the make_video loop body before the stdin write (lines 77
to 84): the 2048-wide special case, then the assert statement. -/
def processFrame (outputSize : String) (f : FrameU8) : Except PyError SinkFrame :=
  let out := sinkOut f
  if pyPairTruthy (sizeAssertCond outputSize out) sizeAssertMsg then .ok out
  else .error (.assertionError sizeAssertMsg)

/-- Observable actions of the Stream Encoder Sink. -/
inductive SinkEvent
  | write (sf : SinkFrame)
  | closeStdin
  | waitProc

/-- Outcome of running the Stream Encoder Sink worker. -/
structure SinkRun where
  events : List SinkEvent
  error : Option PyError

/-- make_video (lines 74 to 88) run against the complete FIFO contents of its
input queue: the for loop runs len(latents) times; a get on an exhausted queue
raises queue.Empty after the 10 second timeout, and make_video installs no
handler, so that exception terminates the worker, skipping the close and wait
of lines 87 and 88. -/
def make_video (outputSize : String) : Nat → List FrameU8 → SinkRun
  | 0, _ => ⟨[.closeStdin, .waitProc], none⟩
  | _ + 1, [] => ⟨[], some .queueEmpty⟩
  | n + 1, f :: rest =>
      match processFrame outputSize f with
      | .error e => ⟨[], some e⟩
      | .ok sf =>
          let r := make_video outputSize n rest
          ⟨.write sf :: r.events, r.error⟩

/-- Line 45: the encoder resolution string; anything that is not exactly 1024
or exactly 512 falls through to "1920x1080" with no validation. -/
def output_size_str (out_size : Int) : String :=
  if out_size = 1024 then "1024x1024"
  else if out_size = 512 then "512x512" else "1920x1080"

/-- latents[n : n + batch_size] for n = 0, B, 2B, ... (lines 114 and 116): the
successive batch slices.  Written so the recursion decreases even at B = 0;
for B > 0 the head slice is take B and the tail recursion runs on drop B. -/
def batchSlices (B : Nat) : List α → List (List α)
  | [] => []
  | x :: xs => (x :: xs.take (B - 1)) :: batchSlices B (xs.drop (B - 1))
termination_by l => l.length
decreasing_by
  simp only [List.length_drop, List.length_cons]
  omega

/-- The per-batch generator call (lines 141 to 148), elementwise on the latent
batch: the external generator yields one output image per latent. -/
def runScheduler (G : α → RawImg) (latents : List α) (B : Nat) : List RawBatch :=
  (batchSlices B latents).map (fun b => b.map G)

/-- The frames the Formatter to Sink queue carries over a whole healthy run. -/
def pipelineFrames (G : α → RawImg) (latents : List α) (B : Nat) : List FrameU8 :=
  (split_batches_run (runScheduler G latents B)).out

/-- Python range(0, stop, step) for step > 0: the multiples of step below
stop.  (step = 0 raises ValueError in Python and is outside this model.) -/
def pyRange (stop step : Nat) : List Nat :=
  (List.range stop).filter (fun n => n % step == 0)

/-- Thread.join (lines 157 and 158) on a thread that was never started raises
RuntimeError. -/
def joinThread (started : Bool) : Except PyError Unit :=
  if started then .ok ()
  else .error (.runtimeError "cannot join thread before it is started")

/-- Control-flow outcome of one render call. -/
structure RenderRun where
  batchIndices : List Nat
  splitterStarted : Bool
  rendererStarted : Bool
  result : Except PyError Unit

/-- Control flow of render around the batch loop (lines 114 to 158): the loop
variable n ranges over range(0, len(latents), batch_size); both worker threads
are started inside the n == 0 iteration (lines 153 to 155); afterwards the
main thread joins both workers. -/
def render_flow (N B : Nat) : RenderRun :=
  let idxs := pyRange N B
  let started := idxs.contains 0
  ⟨idxs, started, started,
    do
      let _ ← joinThread started
      joinThread started⟩

/-- A queue.Queue constructor configuration; the Python default maxsize is 0,
and any maxsize less than or equal to zero means an infinite capacity. -/
structure PyQueueCfg where
  maxsize : Int

/-- Line 28: split_queue = queue.Queue(). -/
def split_queue_cfg : PyQueueCfg := ⟨0⟩

/-- Line 29: render_queue = queue.Queue(). -/
def render_queue_cfg : PyQueueCfg := ⟨0⟩

/-- queue.Queue.put blocks only when 0 < maxsize and the queue already holds
at least maxsize items. -/
def PyQueueCfg.putBlocks (q : PyQueueCfg) (occupancy : Nat) : Bool :=
  decide (0 < q.maxsize) && decide (q.maxsize ≤ (occupancy : Int))

/-- The names bound at module scope in render.py: the six imports and the one
top-level def.  original_weights is not among them, it is not a builtin, and
render never assigns it as a bare name, so CPython compiles every use of it in
render as a global load that fails. -/
def moduleBindings : List String :=
  ["uuid", "queue", "ffmpeg", "PIL", "np", "th", "Thread", "render"]

/-- Whether a global name lookup from inside render succeeds. -/
def globalDefined (n : String) : Bool := moduleBindings.contains n

/-- Line 105: original_weights[param] = param_dict[param].copy()... is a
subscript store, which first loads the name original_weights. -/
def snapshotStore (_param : String) : Except PyError Unit :=
  if globalDefined "original_weights" then .ok ()
  else .error (.nameError "original_weights")

/-- The snapshot loop of lines 103 to 105 over the rewrite parameter names:
the first iteration already fails the original_weights load. -/
def rewriteSetup : List String → Except PyError Unit
  | [] => .ok ()
  | p :: _ => snapshotStore p

/-- The truncation argument: a Python float, a Python int (the declared
default is the int 1), or a torch tensor holding one value per frame. -/
inductive Truncation
  | pyFloat (v : Rat)
  | pyInt (v : Int)
  | tensor (vs : List Rat)

/-- Lines 111 and 112: if not isinstance(truncation, float), the code calls
truncation.float(); a Python int has no attribute named float. -/
def truncationSetup : Truncation → Except PyError Truncation
  | .pyFloat v => .ok (.pyFloat v)
  | .pyInt _ => .error (.attributeError "int" "float")
  | .tensor vs => .ok (.tensor vs)

/-- Line 138: truncation[n : n + batch_size] if not
isinstance(truncation, float) else truncation. -/
def truncationBatch (t : Truncation) (n B : Nat) : Except PyError Truncation :=
  match t with
  | .pyFloat v => .ok (.pyFloat v)
  | .tensor vs => .ok (.tensor ((vs.drop n).take B))
  | .pyInt _ => .error (.typeError "int object is not subscriptable")

/-! ## Helper lemmas about the batch partition -/

theorem batchSlices_flatten (B : Nat) : ∀ l : List α, (batchSlices B l).flatten = l
  | [] => by simp [batchSlices]
  | x :: xs => by
      rw [batchSlices]
      simp only [List.flatten_cons]
      rw [batchSlices_flatten B (xs.drop (B - 1))]
      simp [List.take_append_drop]
termination_by l => l.length
decreasing_by
  simp only [List.length_drop, List.length_cons]
  omega

theorem batchSlices_length (B : Nat) (hB : 0 < B) :
    ∀ l : List α, (batchSlices B l).length = (l.length + B - 1) / B
  | [] => by
      simp only [batchSlices, List.length_nil, Nat.zero_add]
      symm
      exact Nat.div_eq_of_lt (by omega)
  | x :: xs => by
      rw [batchSlices]
      simp only [List.length_cons]
      rw [batchSlices_length B hB (xs.drop (B - 1))]
      simp only [List.length_drop]
      rcases Nat.le_total (B - 1) xs.length with hle | hlt
      · have h1 : xs.length - (B - 1) + B - 1 = xs.length := by omega
        have h2 : xs.length + 1 + B - 1 = xs.length + B := by omega
        rw [h1, h2, Nat.add_div_right _ hB]
      · have h1 : xs.length - (B - 1) + B - 1 = B - 1 := by omega
        have h2 : xs.length + 1 + B - 1 = xs.length + B := by omega
        have e1 : (B - 1) / B = 0 := Nat.div_eq_of_lt (by omega)
        have e2 : xs.length / B = 0 := Nat.div_eq_of_lt (by omega)
        rw [h1, h2, e1, Nat.add_div_right _ hB, e2]
termination_by l => l.length
decreasing_by
  simp only [List.length_drop, List.length_cons]
  omega

theorem batchSlices_size_le (B : Nat) (hB : 0 < B) :
    ∀ l : List α, ∀ b ∈ batchSlices B l, b.length ≤ B
  | [], b, hb => by simp [batchSlices] at hb
  | x :: xs, b, hb => by
      rw [batchSlices] at hb
      rcases List.mem_cons.mp hb with h | h
      · subst h
        simp only [List.length_cons]
        have := List.length_take_le (B - 1) xs
        omega
      · exact batchSlices_size_le B hB (xs.drop (B - 1)) b h
termination_by l => l.length
decreasing_by
  simp only [List.length_drop, List.length_cons]
  omega

theorem batchSlices_ne_nil (B : Nat) (l : List α) :
    batchSlices B l = [] ↔ l = [] := by
  cases l with
  | nil => simp [batchSlices]
  | cons x xs => rw [batchSlices]; simp

theorem batchSlices_full (B : Nat) (hB : 0 < B) :
    ∀ l : List α, ∀ i, i + 1 < (batchSlices B l).length →
      ((batchSlices B l).getD i []).length = B
  | [], i, hi => by simp [batchSlices] at hi
  | x :: xs, i, hi => by
      rw [batchSlices] at hi ⊢
      cases i with
      | zero =>
          simp only [List.length_cons] at hi
          have hne : batchSlices B (xs.drop (B - 1)) ≠ [] := by
            intro h
            rw [h] at hi
            simp at hi
          have hd : xs.drop (B - 1) ≠ [] := by
            intro h
            exact hne ((batchSlices_ne_nil B _).mpr h)
          have hlen : B - 1 ≤ xs.length := by
            by_contra hcon
            exact hd (List.drop_eq_nil_of_le (by omega))
          simp only [List.getD_cons_zero, List.length_cons, List.length_take]
          omega
      | succ j =>
          simp only [List.length_cons] at hi
          simp only [List.getD_cons_succ]
          exact batchSlices_full B hB (xs.drop (B - 1)) j (by omega)
termination_by l => l.length
decreasing_by
  simp only [List.length_drop, List.length_cons]
  omega

/-! ## Helper lemmas about the two workers -/

theorem split_batches_run_out :
    ∀ batches : List RawBatch,
      (split_batches_run batches).out = batches.flatten.map formatImg
  | [] => by simp [split_batches_run]
  | b :: rest => by
      simp [split_batches_run, processBatchF, split_batches_run_out rest]

theorem split_batches_run_timeout (batches : List RawBatch) :
    (split_batches_run batches).exitedViaTimeout = true := by
  induction batches with
  | nil => rfl
  | cons b rest ih => simp [split_batches_run, ih]

theorem processFrame_ok (outputSize : String) (f : FrameU8) :
    processFrame outputSize f = .ok (sinkOut f) := by
  simp [processFrame, pyPairTruthy]

theorem pipelineFrames_eq (G : α → RawImg) (latents : List α) (B : Nat) :
    pipelineFrames G latents B = latents.map (fun v => formatImg (G v)) := by
  rw [pipelineFrames, runScheduler, split_batches_run_out]
  rw [← List.map_flatten, batchSlices_flatten, List.map_map]
  rfl

theorem make_video_complete (s : String) :
    ∀ frames : List FrameU8,
      make_video s frames.length frames =
        ⟨frames.map (fun f => .write (sinkOut f)) ++ [.closeStdin, .waitProc], none⟩
  | [] => by simp [make_video]
  | f :: rest => by
      simp only [List.length_cons, make_video, processFrame_ok, List.map_cons,
        List.cons_append]
      rw [make_video_complete s rest]

theorem make_video_starved (s : String) :
    ∀ (N : Nat) (frames : List FrameU8), frames.length < N →
      make_video s N frames =
        ⟨frames.map (fun f => .write (sinkOut f)), some .queueEmpty⟩
  | 0, frames, h => by omega
  | n + 1, [], _ => by simp [make_video]
  | n + 1, f :: rest, h => by
      simp only [make_video, processFrame_ok, List.map_cons]
      rw [make_video_starved s n rest (by simpa using h)]

/-! ## Claim theorems -/

/-- Claim C1: for a sample sequence of N latents (N > 0) and batch size B > 0,
render partitions the sequence into exactly ceil(N/B) batches in index order,
every batch except possibly the last has size B, the Sink consumes exactly N
frames with output frame index i corresponding to sample index i, and after
the Nth frame the Sink closes the encoder stdin and waits for the process. -/
theorem pipeline_order_C1 {α : Type} (G : α → RawImg) (latents : List α)
    (B : Nat) (s : String) (_hN : 0 < latents.length) (hB : 0 < B) :
    (batchSlices B latents).length = (latents.length + B - 1) / B ∧
    (batchSlices B latents).flatten = latents ∧
    (∀ b ∈ batchSlices B latents, b.length ≤ B) ∧
    (∀ i, i + 1 < (batchSlices B latents).length →
      ((batchSlices B latents).getD i []).length = B) ∧
    pipelineFrames G latents B = latents.map (fun v => formatImg (G v)) ∧
    (pipelineFrames G latents B).length = latents.length ∧
    make_video s latents.length (pipelineFrames G latents B) =
      ⟨(latents.map (fun v => formatImg (G v))).map
          (fun f => SinkEvent.write (sinkOut f)) ++
        [SinkEvent.closeStdin, SinkEvent.waitProc], none⟩ := by
  have hpf := pipelineFrames_eq G latents B
  have hlen : (pipelineFrames G latents B).length = latents.length := by
    rw [hpf, List.length_map]
  refine ⟨batchSlices_length B hB latents, batchSlices_flatten B latents,
    batchSlices_size_le B hB latents, batchSlices_full B hB latents, hpf, hlen, ?_⟩
  rw [← hlen, make_video_complete, hpf]

/-- Concrete generator used to witness the claims: latent n becomes a 3x1x1
image whose pixels all hold the rational n. -/
def G0 : Nat → RawImg := fun n => ⟨3, 1, 1, fun _ _ _ => (n : Rat)⟩

theorem pipeline_order_C1_witness :
    (batchSlices 2 ([0, 1, 2] : List Nat)).length = (3 + 2 - 1) / 2 ∧
    (batchSlices 2 ([0, 1, 2] : List Nat)).flatten = [0, 1, 2] ∧
    pipelineFrames G0 [0, 1, 2] 2 = [0, 1, 2].map (fun v => formatImg (G0 v)) ∧
    (pipelineFrames G0 [0, 1, 2] 2).length = 3 := by
  have h := pipeline_order_C1 G0 [0, 1, 2] 2 "512x512" (by decide) (by decide)
  exact ⟨h.1, h.2.1, h.2.2.2.2.1, h.2.2.2.2.2.1⟩

/-- Claim C2, recorded as a code bug and evaluated at the failing input: with
any non-empty rewrite map, the snapshot loop of lines 103 to 105 raises
NameError on the undeclared global original_weights before any batch runs, so
no transform is ever applied to an original snapshot. -/
theorem rewrite_setup_C2 :
    rewriteSetup ["conv1.weight"] = .error (.nameError "original_weights") := by
  rfl

/-- A 256x256 RGB frame, dimensionally incompatible with every supported
output size. -/
def mismatchFrame : FrameU8 := ⟨256, 256, 3, fun _ _ _ => 0⟩

/-- Claim C3, recorded as a code bug and evaluated at the failing input: a
dequeued 256x256 frame with declared output size 512x512 is written to the
encoder and no error is raised, because the assert of lines 81 to 84 tests
the always-truthy 2-tuple (condition, message). -/
theorem assert_never_fires_C3 :
    processFrame "512x512" mismatchFrame = .ok (.plain mismatchFrame) ∧
    make_video "512x512" 1 [mismatchFrame] =
      ⟨[.write (.plain mismatchFrame), .closeStdin, .waitProc], none⟩ := by
  constructor <;> rfl

/-- A 1024x2048 RGB frame, the letterboxed panoramic case. -/
def wideFrame : FrameU8 := ⟨1024, 2048, 3, fun _ _ _ => 0⟩

/-- Claim C4 counterexample: with declared target 512x512, a 2048-wide frame
is cropped and handed to the bilinear 1920x1080 resize, and no
configuration-mismatch error is raised, refuting the only-if direction of the
claim. -/
theorem crop_regardless_C4_counterexample :
    processFrame "512x512" wideFrame =
      .ok (.croppedResized (cropCols wideFrame) 1920 1080 .bilinear) ∧
    (make_video "512x512" 1 [wideFrame]).error = none := by
  constructor <;> rfl

/-- Claim C4 amended: a 2048-wide frame is cropped to columns
[112 : width - 112] (width 224 less, each kept column shifted by 112) and
handed to the bilinear resize with target exactly 1920x1080, regardless of
the declared target size, and no error is ever raised for it. -/
theorem crop_2048_C4 (outputSize : String) (f : FrameU8) (h : f.W = 2048) :
    sinkOut f = .croppedResized (cropCols f) 1920 1080 .bilinear ∧
    (cropCols f).W = f.W - 224 ∧
    (cropCols f).H = f.H ∧
    (∀ r c ch, (cropCols f).pix r c ch = f.pix r (c + 112) ch) ∧
    processFrame outputSize f =
      .ok (.croppedResized (cropCols f) 1920 1080 .bilinear) := by
  have h1 : sinkOut f = .croppedResized (cropCols f) 1920 1080 .bilinear := by
    simp [sinkOut, h]
  exact ⟨h1, rfl, rfl, fun r c ch => rfl, by rw [processFrame_ok, h1]⟩

theorem crop_2048_C4_witness :
    sinkOut wideFrame = .croppedResized (cropCols wideFrame) 1920 1080 .bilinear ∧
    (cropCols wideFrame).W = wideFrame.W - 224 := by
  have h := crop_2048_C4 "1024x1024" wideFrame rfl
  exact ⟨h.1, h.2.1⟩

/-- A well-formed 512x512 RGB frame. -/
def smallFrame : FrameU8 := ⟨512, 512, 3, fun _ _ _ => 0⟩

/-- Claim C5 counterexample: with 2 frames expected but only one ever
enqueued, the Sink worker terminates via the queue.Empty timeout with the
close and wait events never emitted, so the encoder stdin is not finalized. -/
theorem starved_sink_C5_counterexample :
    (make_video "512x512" 2 [smallFrame]).error = some .queueEmpty ∧
    SinkEvent.closeStdin ∉ (make_video "512x512" 2 [smallFrame]).events ∧
    SinkEvent.waitProc ∉ (make_video "512x512" 2 [smallFrame]).events := by
  have h : make_video "512x512" 2 [smallFrame] =
      ⟨[.write (.plain smallFrame)], some .queueEmpty⟩ := rfl
  rw [h]
  refine ⟨rfl, ?_, ?_⟩ <;> simp

/-- Claim C5 amended: when the scheduler enqueues nothing further, the
Formatter terminates through its caught timeout and the Sink terminates
through an uncaught queue.Empty timeout; but the Sink does not finalize the
encoder stdin: the close and wait of lines 87 and 88 run only after all N
frames have been consumed, and the propagating exception skips them. -/
theorem starved_pipeline_C5 (batches : List RawBatch) (s : String) (N : Nat)
    (frames : List FrameU8) (h : frames.length < N) :
    (split_batches_run batches).exitedViaTimeout = true ∧
    (make_video s N frames).error = some .queueEmpty ∧
    SinkEvent.closeStdin ∉ (make_video s N frames).events ∧
    SinkEvent.waitProc ∉ (make_video s N frames).events := by
  rw [make_video_starved s N frames h]
  refine ⟨split_batches_run_timeout batches, rfl, ?_, ?_⟩ <;>
    simp [List.mem_map]

theorem starved_pipeline_C5_witness :
    (split_batches_run []).exitedViaTimeout = true ∧
    (make_video "512x512" 1 []).error = some .queueEmpty := by
  have h := starved_pipeline_C5 [] "512x512" 1 [] (by decide)
  exact ⟨h.1, h.2.1⟩

/-- Claim C6, recorded as a code bug and evaluated at the failing input: the
declared default truncation is the Python int 1, which the float-only
isinstance test of line 111 classifies as a sequence, so line 112 raises
AttributeError instead of passing the scalar through unchanged.  A float
scalar is indeed never sliced and a tensor is sliced to [n : n + B]. -/
theorem truncation_scalar_C6 :
    truncationSetup (.pyInt 1) = .error (.attributeError "int" "float") ∧
    (∀ v : Rat, truncationSetup (.pyFloat v) = .ok (.pyFloat v)) ∧
    (∀ v : Rat, ∀ n B : Nat, truncationBatch (.pyFloat v) n B = .ok (.pyFloat v)) ∧
    (∀ vs : List Rat, ∀ n B : Nat,
      truncationBatch (.tensor vs) n B = .ok (.tensor ((vs.drop n).take B))) :=
  ⟨rfl, fun _ => rfl, fun _ _ _ => rfl, fun _ _ _ => rfl⟩

/-- Claim C7: one raw batch of B frames yields exactly B formatted frames in
batch order; each output pixel is the input value clamped to [-1, 1], mapped
through (x + 1) * 127.5, reordered from CHW to HWC, and truncated to an 8-bit
unsigned value with no wraparound; each input frame yields one output frame. -/
theorem formatter_C7 (batch : RawBatch) :
    (split_batches_run [batch]).out.length = batch.length ∧
    (split_batches_run [batch]).out = batch.map formatImg ∧
    (∀ i, i < batch.length →
      (split_batches_run [batch]).out.getD i default =
        formatImg (batch.getD i default)) ∧
    (∀ img : RawImg, (formatImg img).H = img.H ∧ (formatImg img).W = img.W ∧
      (formatImg img).C = img.C) ∧
    (∀ img : RawImg, ∀ h w c,
      (formatImg img).pix h w c =
        (⌊(max (-1) (min 1 (img.pix c h w)) + 1) * 127.5⌋).toNat ∧
      (formatImg img).pix h w c ≤ 255) := by
  have hout : (split_batches_run [batch]).out = batch.map formatImg := by
    rw [split_batches_run_out]
    simp
  refine ⟨by rw [hout, List.length_map], hout, ?_, fun img => ⟨rfl, rfl, rfl⟩, ?_⟩
  · intro i hi
    rw [hout]
    rw [List.getD_eq_getElem?_getD, List.getD_eq_getElem?_getD, List.getElem?_map]
    rcases List.getElem?_eq_some_iff.mpr ⟨hi, rfl⟩ with h
    rw [h]
    rfl
  · intro img h w c
    have hle : (clampQ (img.pix c h w) + 1) * 127.5 ≤ 255 := by
      have h1 : clampQ (img.pix c h w) ≤ 1 := by
        simp only [clampQ]
        exact max_le (by norm_num) (min_le_left _ _)
      nlinarith
    have hge : (0 : Rat) ≤ (clampQ (img.pix c h w) + 1) * 127.5 := by
      have h2 : (-1 : Rat) ≤ clampQ (img.pix c h w) := le_max_left _ _
      nlinarith
    have hfl : ⌊(clampQ (img.pix c h w) + 1) * 127.5⌋ ≤ 255 := by
      have := Int.floor_le_floor (α := Rat) hle
      simpa using this
    have hnat : (⌊(clampQ (img.pix c h w) + 1) * 127.5⌋).toNat ≤ 255 := by
      omega
    constructor
    · show u8cast ((clampQ (img.pix c h w) + 1) * 127.5) = _
      rw [u8cast, Nat.mod_eq_of_lt (by omega)]
      rfl
    · show u8cast ((clampQ (img.pix c h w) + 1) * 127.5) ≤ 255
      rw [u8cast]
      omega

/-- A concrete 3x1x1 raw image whose single pixel value 2 clamps to 1. -/
def img2 : RawImg := ⟨3, 1, 1, fun _ _ _ => 2⟩

theorem formatter_C7_witness :
    (split_batches_run [[img2]]).out.length = 1 ∧
    (formatImg img2).pix 0 0 0 ≤ 255 := by
  have h := formatter_C7 [img2]
  exact ⟨h.1, (h.2.2.2.2 img2 0 0 0).2⟩

/-- Claim C8 counterexample: no fixed capacity bounds the number of enqueued
but not yet dequeued units across runs; with batch size 1 and a consumer that
never dequeues, the Batch to Formatter channel holds one unit per sample. -/
theorem unbounded_queue_C8_counterexample :
    ¬ ∃ cap : Nat, ∀ latents : List Nat, (batchSlices 1 latents).length ≤ cap := by
  rintro ⟨cap, h⟩
  have h2 := h (List.range (cap + 1))
  rw [batchSlices_length 1 (by decide)] at h2
  simp at h2

/-- Claim C8 amended: both hand-off channels are constructed with the default
maxsize 0, meaning unbounded capacity: an enqueue never blocks at any
occupancy, and no fixed capacity bounds channel occupancy across runs, since a
run with a stalled consumer keeps every enqueued batch resident. -/
theorem unbounded_queue_C8 :
    split_queue_cfg.maxsize = 0 ∧
    render_queue_cfg.maxsize = 0 ∧
    (∀ occ : Nat, split_queue_cfg.putBlocks occ = false) ∧
    (∀ occ : Nat, render_queue_cfg.putBlocks occ = false) ∧
    (∀ cap : Nat, ∃ latents : List Nat, cap < (batchSlices 1 latents).length) := by
  refine ⟨rfl, rfl, fun occ => rfl, fun occ => rfl, fun cap => ?_⟩
  refine ⟨List.range (cap + 1), ?_⟩
  rw [batchSlices_length 1 (by decide)]
  simp

/-- Claim C9: every out_size other than exactly 1024 and exactly 512 (for
example 720) selects the encoder resolution string "1920x1080"; line 45 never
validates out_size against the supported sizes, so configuration proceeds
without error. -/
theorem out_size_fallback_C9 (z : Int) (h1 : z ≠ 1024) (h2 : z ≠ 512) :
    output_size_str z = "1920x1080" := by
  simp [output_size_str, h1, h2]

theorem out_size_fallback_C9_witness :
    output_size_str 720 = "1920x1080" :=
  out_size_fallback_C9 720 (by decide) (by decide)

/-- Claim C10: with an empty sample sequence the batch loop body never runs,
the worker threads are never started, and the final join of line 157 raises
RuntimeError, so render never terminates normally without at least one
sample. -/
theorem empty_latents_C10 (B : Nat) (_hB : 0 < B) :
    (render_flow 0 B).batchIndices = [] ∧
    (render_flow 0 B).splitterStarted = false ∧
    (render_flow 0 B).rendererStarted = false ∧
    (render_flow 0 B).result =
      .error (.runtimeError "cannot join thread before it is started") ∧
    (∀ N, (render_flow N B).result = .ok () → 0 < N) := by
  refine ⟨rfl, rfl, rfl, rfl, ?_⟩
  intro N hok
  rcases N with _ | n
  · rw [show render_flow 0 B = ⟨[], false, false,
      .error (.runtimeError "cannot join thread before it is started")⟩ from rfl] at hok
    exact absurd hok (by simp)
  · omega

theorem empty_latents_C10_witness :
    (render_flow 0 1).splitterStarted = false ∧
    (render_flow 0 1).result =
      .error (.runtimeError "cannot join thread before it is started") := by
  have h := empty_latents_C10 1 (by decide)
  exact ⟨h.2.1, h.2.2.2.1⟩

end RenderPy
